import Mathlib

/-
Shallow embedding of src/python/cudf/cudf/core/udf/groupby_lowering.py:
the type-specialized lowering/dispatch layer that rewrites reduction calls
on a group value into calls against precompiled device routines.

The module groupby_typing (imported by the source file) is not part of the
provided sources; the handful of items the lowering file uses from it
(the supported-type registry, the default index type, the GroupType shape,
and the dict-of-dicts layout of call_cuda_functions) are modelled from the
spec, each marked in its doc comment.
-/

set_option autoImplicit false

namespace GroupbyLowering

/-- Numba scalar types relevant to the dispatch layer. -/
inductive NType where
  | int32
  | int64
  | float32
  | float64
  deriving DecidableEq, Repr

/-- The closed set of group operations the lowering layer handles. -/
inductive GroupOp where
  | max
  | min
  | sum
  | mean
  | std
  | var
  | size
  | count
  | idxmax
  | idxmin
  deriving DecidableEq, Repr

/-- Modelled from the spec: `index_default_type`, imported by the source from
`cudf.core.udf.groupby_typing` (not under src/), is the "single index element
type currently supported for idx-reductions"; the registration loop in the
source pairs idx-reductions with `types.int64`. -/
def index_default_type : NType := NType.int64

/-- Modelled from the spec: `SUPPORTED_GROUPBY_NUMBA_TYPES`, imported by the
source from `cudf.core.udf.groupby_typing` (not under src/); the Type Registry
holds "initially two numeric types". -/
def SUPPORTED_GROUPBY_NUMBA_TYPES : List NType :=
  [NType.int64, NType.float64]

/-- Modelled from the spec: the numba `GroupType` (defined in groupby_typing,
not under src/) carries the group element type and the index element type;
`GroupType(ty)` with one argument uses the default index type. -/
structure GroupType where
  group_scalar_type : NType
  index_type : NType
  deriving DecidableEq, Repr

/-- `GroupType(ty)`: the one-argument form with the index type defaulted. -/
def GroupType.mk1 (ty : NType) : GroupType :=
  { group_scalar_type := ty, index_type := index_default_type }

/-- Lowered value types: scalars and pointers to scalars. -/
inductive LType where
  | scalar (t : NType)
  | ptr (t : NType)
  deriving DecidableEq, Repr

/-- Modelled from the spec: `GroupType.group_data_type` is a pointer to the
group element type. -/
def GroupType.group_data_type (g : GroupType) : LType :=
  LType.ptr g.group_scalar_type

/-- Modelled from the spec: `GroupType.group_index_type` is a pointer to the
index element type. -/
def GroupType.group_index_type (g : GroupType) : LType :=
  LType.ptr g.index_type

/-- Modelled from the spec: `GroupType.size_type` is the 64-bit integer type
of the stored group size. -/
def GroupType.size_type (_ : GroupType) : LType :=
  LType.scalar NType.int64

/-- The call-site signature a lowering receives: the return type inferred for
the call site and the `GroupType` of argument 0. -/
structure CallSig where
  return_type : NType
  arg0 : GroupType
  deriving DecidableEq, Repr

/-- The runtime `Group` struct value: the three fields `group_constructor`
fills (raw data pointer, raw index pointer, size). -/
structure GroupValue where
  group_data : Nat
  index : Nat
  size : Int
  deriving DecidableEq, Repr

/-- A numba array value: backing storage address, length, element type. -/
structure ArrayValue where
  data : Nat
  length : Nat
  elt_type : NType
  deriving DecidableEq, Repr

/-- A reference to one precompiled external device function. -/
abbrev FuncRef := Nat

/-- Modelled from the spec: `call_cuda_functions` (built in groupby_typing,
not under src/) maps an operation name to a dict from
`(return type, element type)` to an external function; here a dict of dicts
as association lists, left abstract in most theorems. -/
structure DispatchTable where
  entries : List (GroupOp × List ((NType × NType) × FuncRef))
  deriving DecidableEq, Repr

/-- Python dict access: first binding of the key, if present. -/
def dictFind {α β : Type} [DecidableEq α] (key : α) : List (α × β) → Option β
  | [] => none
  | (k, v) :: rest => if k = key then some v else dictFind key rest

/-- Observable actions of a lowering besides its returned value: a Dispatch
Table access with the key used, or a read/write of a buffer element. The
source performs no buffer access during lowering, so the memory events exist
in the model only as possibilities to rule out. -/
inductive Event where
  | tableLookup (op : GroupOp) (key : NType × NType)
  | memRead (addr : Nat)
  | memWrite (addr : Nat) (v : Int)
  deriving DecidableEq, Repr

/-- Errors a lowering can raise: the explicit TypeError of the idx lowerings
(naming the expected default index type), or a Python KeyError from one of the
two dict accesses, carrying exactly the missing key. -/
inductive LoweringError where
  | typeErr (expected : NType)
  | keyErrOp (op : GroupOp)
  | keyErrKey (key : NType × NType)
  deriving DecidableEq, Repr

/-- Runtime argument values marshalled into the emitted call. -/
inductive ArgVal where
  | ptrVal (a : Nat)
  | intVal (n : Int)
  deriving DecidableEq, Repr

/-- The external call emitted by a lowering on a dispatch hit: the resolved
function, the declared signature, and the marshalled arguments in order. -/
structure EmittedCall where
  func : FuncRef
  ret_type : NType
  param_types : List LType
  call_args : List ArgVal
  deriving DecidableEq, Repr

/-- The value a lowering produces: either `grp.size` returned directly with no
emitted call, or the result of one emitted external call. -/
inductive LowerResult where
  | direct (v : Int)
  | call (c : EmittedCall)
  deriving DecidableEq, Repr

/-- Success or raised error of one lowering. -/
inductive Outcome where
  | ok (r : LowerResult)
  | err (e : LoweringError)
  deriving DecidableEq, Repr

/-- Full outcome of lowering one call site: the events performed, in order,
and the returned value or raised error. -/
structure LowerOut where
  events : List Event
  result : Outcome
  deriving DecidableEq, Repr

/-- Embeds `lowering_function` (groupby_lowering.py lines 20-54): the shared
lowering for max/min/sum/mean/std/var. It computes
`type_key = (sig.return_type, grp_type.group_scalar_type)`, accesses
`call_cuda_functions[function][type_key]`, and on a hit emits a call passing
the group data pointer and the group size. -/
def lowering_function (tbl : DispatchTable) (sig : CallSig) (grp : GroupValue)
    (function : GroupOp) : LowerOut :=
  let retty := sig.return_type
  let grp_type := sig.arg0
  let type_key := (retty, grp_type.group_scalar_type)
  match dictFind function tbl.entries with
  | none =>
      { events := [Event.tableLookup function type_key],
        result := Outcome.err (LoweringError.keyErrOp function) }
  | some inner =>
      match dictFind type_key inner with
      | none =>
          { events := [Event.tableLookup function type_key],
            result := Outcome.err (LoweringError.keyErrKey type_key) }
      | some func =>
          { events := [Event.tableLookup function type_key],
            result := Outcome.ok (LowerResult.call
              { func := func
                ret_type := retty
                param_types := [grp_type.group_data_type, grp_type.size_type]
                call_args := [ArgVal.ptrVal grp.group_data,
                  ArgVal.intVal grp.size] }) }

/-- Embeds `cuda_Group_idx_max_or_min` (lines 90-127): the lowering for
idxmax/idxmin. It first rejects a non-default index type with a TypeError
naming the expected default, then accesses
`call_cuda_functions[function][(types.int64, grp_type.group_scalar_type)]`
and on a hit emits a call passing the data pointer, the index pointer, and
the size. -/
def cuda_Group_idx_max_or_min (tbl : DispatchTable) (sig : CallSig)
    (grp : GroupValue) (function : GroupOp) : LowerOut :=
  let retty := sig.return_type
  let grp_type := sig.arg0
  if grp_type.index_type ≠ index_default_type then
    { events := [],
      result := Outcome.err (LoweringError.typeErr index_default_type) }
  else
    let type_key := (NType.int64, grp_type.group_scalar_type)
    match dictFind function tbl.entries with
    | none =>
        { events := [Event.tableLookup function type_key],
          result := Outcome.err (LoweringError.keyErrOp function) }
    | some inner =>
        match dictFind type_key inner with
        | none =>
            { events := [Event.tableLookup function type_key],
              result := Outcome.err (LoweringError.keyErrKey type_key) }
        | some func =>
            { events := [Event.tableLookup function type_key],
              result := Outcome.ok (LowerResult.call
                { func := func
                  ret_type := retty
                  param_types := [grp_type.group_data_type,
                    grp_type.group_index_type, grp_type.size_type]
                  call_args := [ArgVal.ptrVal grp.group_data,
                    ArgVal.ptrVal grp.index, ArgVal.intVal grp.size] }) }

/-- Embeds `cuda_Group_size` (lines 141-145): returns `grp.size` directly. -/
def cuda_Group_size (grp : GroupValue) : LowerOut :=
  { events := [], result := Outcome.ok (LowerResult.direct grp.size) }

/-- Embeds `cuda_Group_count` (lines 148-152): returns `grp.size` directly. -/
def cuda_Group_count (grp : GroupValue) : LowerOut :=
  { events := [], result := Outcome.ok (LowerResult.direct grp.size) }

/-- Embeds `cuda_Group_max` (line 130). -/
def cuda_Group_max (tbl : DispatchTable) (sig : CallSig) (grp : GroupValue) :
    LowerOut :=
  lowering_function tbl sig grp GroupOp.max

/-- Embeds `cuda_Group_min` (line 131). -/
def cuda_Group_min (tbl : DispatchTable) (sig : CallSig) (grp : GroupValue) :
    LowerOut :=
  lowering_function tbl sig grp GroupOp.min

/-- Embeds `cuda_Group_sum` (line 132). -/
def cuda_Group_sum (tbl : DispatchTable) (sig : CallSig) (grp : GroupValue) :
    LowerOut :=
  lowering_function tbl sig grp GroupOp.sum

/-- Embeds `cuda_Group_mean` (line 133). -/
def cuda_Group_mean (tbl : DispatchTable) (sig : CallSig) (grp : GroupValue) :
    LowerOut :=
  lowering_function tbl sig grp GroupOp.mean

/-- Embeds `cuda_Group_std` (line 134). -/
def cuda_Group_std (tbl : DispatchTable) (sig : CallSig) (grp : GroupValue) :
    LowerOut :=
  lowering_function tbl sig grp GroupOp.std

/-- Embeds `cuda_Group_var` (line 135). -/
def cuda_Group_var (tbl : DispatchTable) (sig : CallSig) (grp : GroupValue) :
    LowerOut :=
  lowering_function tbl sig grp GroupOp.var

/-- Embeds `cuda_Group_idxmax` (line 137). -/
def cuda_Group_idxmax (tbl : DispatchTable) (sig : CallSig)
    (grp : GroupValue) : LowerOut :=
  cuda_Group_idx_max_or_min tbl sig grp GroupOp.idxmax

/-- Embeds `cuda_Group_idxmin` (line 138). -/
def cuda_Group_idxmin (tbl : DispatchTable) (sig : CallSig)
    (grp : GroupValue) : LowerOut :=
  cuda_Group_idx_max_or_min tbl sig grp GroupOp.idxmin

/-- The operation-lowering bridge of the spec (`invoke_reduction`): dispatch
one operation call site to the lowering the module-level loop (lines 155-169)
registers for it. -/
def invoke_reduction (tbl : DispatchTable) (sig : CallSig) (grp : GroupValue) :
    GroupOp → LowerOut
  | GroupOp.max => cuda_Group_max tbl sig grp
  | GroupOp.min => cuda_Group_min tbl sig grp
  | GroupOp.sum => cuda_Group_sum tbl sig grp
  | GroupOp.mean => cuda_Group_mean tbl sig grp
  | GroupOp.std => cuda_Group_std tbl sig grp
  | GroupOp.var => cuda_Group_var tbl sig grp
  | GroupOp.size => cuda_Group_size grp
  | GroupOp.count => cuda_Group_count grp
  | GroupOp.idxmax => cuda_Group_idxmax tbl sig grp
  | GroupOp.idxmin => cuda_Group_idxmin tbl sig grp

/-- Result type of the constructor lowering: it can in principle raise, so an
error branch exists in the model for the source to (not) use. -/
inductive CtorResult where
  | ok (g : GroupValue)
  | err (e : LoweringError)
  deriving DecidableEq, Repr

/-- Embeds `group_constructor` (lines 57-87): extracts the raw data pointer of
each array and fills the struct fields `group_data`, `index`, `size`; no
validation, no copying of elements. -/
def group_constructor (group_data : ArrayValue) (size : Int)
    (index : ArrayValue) : CtorResult :=
  CtorResult.ok
    { group_data := group_data.data, index := index.data, size := size }

/-- Memory: maps raw addresses to stored element values. -/
def Mem : Type := Nat → Int

/-- Read element `i` of the group data buffer through the stored pointer. -/
def read_data_elem (m : Mem) (g : GroupValue) (i : Nat) : Int :=
  m (g.group_data + i)

/-- Read element `i` of the group index buffer through the stored pointer. -/
def read_index_elem (m : Mem) (g : GroupValue) (i : Nat) : Int :=
  m (g.index + i)

/-- The runtime state visible to a lowering: the group struct and the backing
memory. -/
structure LowerState where
  grp : GroupValue
  mem : Mem

/-- Lowering threaded through the runtime state: the source functions only
inspect the struct and emit instructions, so the state passes through. -/
def invoke_reduction_state (tbl : DispatchTable) (sig : CallSig)
    (st : LowerState) (fn : GroupOp) : LowerOut × LowerState :=
  (invoke_reduction tbl sig st.grp fn, st)

/-- The external function a lowering outcome resolved, when it emitted a
call. -/
def resolved_func (o : LowerOut) : Option FuncRef :=
  match o.result with
  | Outcome.ok (LowerResult.call c) => some c.func
  | _ => none

/-- The implementation the registration loop attaches to an operation: one of
the shared lowerings specialized to the operation name, or the direct
size/count implementations. -/
inductive LoweringImpl where
  | plain (function : GroupOp)
  | idx (function : GroupOp)
  | sizeImpl
  | countImpl
  deriving DecidableEq, Repr

/-- One iteration of the module-level registration loop (lines 155-169): the
ten `cuda_lower` registrations made for element type `ty`. Plain operations
are registered at `GroupType(ty)`; idxmax/idxmin at `GroupType(ty, int64)`. -/
def register_for (ty : NType) : List (GroupOp × GroupType × LoweringImpl) :=
  [ (GroupOp.max, GroupType.mk1 ty, LoweringImpl.plain GroupOp.max),
    (GroupOp.min, GroupType.mk1 ty, LoweringImpl.plain GroupOp.min),
    (GroupOp.sum, GroupType.mk1 ty, LoweringImpl.plain GroupOp.sum),
    (GroupOp.count, GroupType.mk1 ty, LoweringImpl.countImpl),
    (GroupOp.size, GroupType.mk1 ty, LoweringImpl.sizeImpl),
    (GroupOp.mean, GroupType.mk1 ty, LoweringImpl.plain GroupOp.mean),
    (GroupOp.std, GroupType.mk1 ty, LoweringImpl.plain GroupOp.std),
    (GroupOp.var, GroupType.mk1 ty, LoweringImpl.plain GroupOp.var),
    (GroupOp.idxmax, { group_scalar_type := ty, index_type := NType.int64 },
      LoweringImpl.idx GroupOp.idxmax),
    (GroupOp.idxmin, { group_scalar_type := ty, index_type := NType.int64 },
      LoweringImpl.idx GroupOp.idxmin) ]

/-- The full output of the module-level registration loop, over every element
type of the registry. -/
def registered_lowerings : List (GroupOp × GroupType × LoweringImpl) :=
  SUPPORTED_GROUPBY_NUMBA_TYPES.foldr (fun ty acc => register_for ty ++ acc) []

/-- Helper: what `lowering_function` resolves is exactly the two-level dict
access at key `(operation, (return type, element type))`. -/
theorem resolved_lowering_function (tbl : DispatchTable) (sig : CallSig)
    (grp : GroupValue) (fn : GroupOp) :
    resolved_func (lowering_function tbl sig grp fn) =
      Option.bind (dictFind fn tbl.entries)
        (dictFind (sig.return_type, sig.arg0.group_scalar_type)) := by
  unfold lowering_function resolved_func
  cases h : dictFind fn tbl.entries with
  | none => rfl
  | some inner =>
      cases h2 : dictFind (sig.return_type, sig.arg0.group_scalar_type) inner <;>
        simp [h2]

/-- Helper: with the default index type, what `cuda_Group_idx_max_or_min`
resolves is exactly the two-level dict access at key
`(operation, (int64, element type))`. -/
theorem resolved_idx_lowering (tbl : DispatchTable) (sig : CallSig)
    (grp : GroupValue) (fn : GroupOp)
    (hidx : sig.arg0.index_type = index_default_type) :
    resolved_func (cuda_Group_idx_max_or_min tbl sig grp fn) =
      Option.bind (dictFind fn tbl.entries)
        (dictFind (NType.int64, sig.arg0.group_scalar_type)) := by
  unfold cuda_Group_idx_max_or_min resolved_func
  simp only [hidx, ne_eq, not_true_eq_false, if_false]
  cases h : dictFind fn tbl.entries with
  | none => rfl
  | some inner =>
      cases h2 : dictFind (NType.int64, sig.arg0.group_scalar_type) inner <;>
        simp [h2]

/-- C1: lowering `size` or `count` returns `grp.size` directly (no emitted
external call) and performs no Dispatch Table lookup, for every table, call
signature (hence every element type) and group value. -/
theorem size_count_return_group_size (tbl : DispatchTable) (sig : CallSig)
    (grp : GroupValue) :
    invoke_reduction tbl sig grp GroupOp.size =
      { events := [], result := Outcome.ok (LowerResult.direct grp.size) } ∧
    invoke_reduction tbl sig grp GroupOp.count =
      { events := [], result := Outcome.ok (LowerResult.direct grp.size) } :=
  ⟨rfl, rfl⟩

/-- C2: lowering idxmax or idxmin on a group whose index type is not the
default index type fails with the TypeError naming the expected default, with
no Dispatch Table lookup performed and no call emitted. -/
theorem idx_rejects_nondefault_index (tbl : DispatchTable) (sig : CallSig)
    (grp : GroupValue) (fn : GroupOp)
    (hop : fn = GroupOp.idxmax ∨ fn = GroupOp.idxmin)
    (hidx : sig.arg0.index_type ≠ index_default_type) :
    invoke_reduction tbl sig grp fn =
      { events := [],
        result := Outcome.err (LoweringError.typeErr index_default_type) } := by
  rcases hop with h | h <;> subst h <;>
    simp [invoke_reduction, cuda_Group_idxmax, cuda_Group_idxmin,
      cuda_Group_idx_max_or_min, hidx]

/-- C2 witness: a float64 index type on an idxmax call site is rejected with
the TypeError naming the default index type. -/
theorem idx_rejects_nondefault_index_witness :
    invoke_reduction { entries := [] }
      { return_type := NType.int64,
        arg0 := { group_scalar_type := NType.int64,
                  index_type := NType.float64 } }
      { group_data := 0, index := 0, size := 0 } GroupOp.idxmax =
      { events := [],
        result := Outcome.err (LoweringError.typeErr index_default_type) } :=
  idx_rejects_nondefault_index _ _ _ _ (Or.inl rfl) (by decide)

/-- C4: the constructor returns a group whose data pointer is the data array
backing address, whose index pointer is the index array backing address, and
whose size is the size argument unchanged; reading an element through the
group reads the original buffer (aliasing, no copy), for any memory
contents. -/
theorem group_constructor_aliases (d idx : ArrayValue) (s : Int) (m : Mem)
    (k : Nat) :
    ∃ g, group_constructor d s idx = CtorResult.ok g ∧
      g.group_data = d.data ∧ g.index = idx.data ∧ g.size = s ∧
      read_data_elem m g k = m (d.data + k) ∧
      read_index_elem m g k = m (idx.data + k) :=
  ⟨{ group_data := d.data, index := idx.data, size := s },
    rfl, rfl, rfl, rfl, rfl, rfl⟩

/-- C9: the constructor validates nothing: for every data array, index array
and size (lengths smaller than the size and unregistered element types
included), it succeeds with the assembled group and its error branch is never
taken. -/
theorem group_constructor_never_fails (d idx : ArrayValue) (s : Int) :
    group_constructor d s idx =
      CtorResult.ok { group_data := d.data, index := idx.data, size := s } ∧
    ∀ e, group_constructor d s idx ≠ CtorResult.err e :=
  ⟨rfl, fun _ h => CtorResult.noConfusion h⟩

/-- A dispatch table holding, for max over float64 groups, two entries whose
keys differ only in the return-type component. -/
def tbl_two_rettys : DispatchTable :=
  { entries := [(GroupOp.max,
      [((NType.float64, NType.float64), 7),
       ((NType.int64, NType.float64), 8)])] }

/-- C3 counterexample: two call sites with the same operation (max), the same
group element type (float64) and the same group value, differing only in the
call-site return type, resolve different external functions; so resolution
does not depend only on the operation and the group type components. -/
theorem plain_key_ignores_return_type_false :
    resolved_func (lowering_function tbl_two_rettys
      { return_type := NType.float64, arg0 := GroupType.mk1 NType.float64 }
      { group_data := 0, index := 0, size := 0 } GroupOp.max) = some 7 ∧
    resolved_func (lowering_function tbl_two_rettys
      { return_type := NType.int64, arg0 := GroupType.mk1 NType.float64 }
      { group_data := 0, index := 0, size := 0 } GroupOp.max) = some 8 ∧
    (some 7 : Option FuncRef) ≠ some 8 := by
  decide

/-- C3 (amended): the dispatch key is the operation together with the pair
(call-site return type, group element type) for plain reductions, and the
operation together with (int64, group element type) for idx-reductions; the
resolved external function depends only on those components (for
idx-reductions, under the default index type, independently of the call-site
return type). -/
theorem dispatch_key_components (tbl : DispatchTable) (fn : GroupOp)
    (sig sigB : CallSig) (grp grpB : GroupValue)
    (helt : sig.arg0.group_scalar_type = sigB.arg0.group_scalar_type) :
    (sig.return_type = sigB.return_type →
      resolved_func (lowering_function tbl sig grp fn) =
        resolved_func (lowering_function tbl sigB grpB fn)) ∧
    (sig.arg0.index_type = index_default_type →
      sigB.arg0.index_type = index_default_type →
      resolved_func (cuda_Group_idx_max_or_min tbl sig grp fn) =
        resolved_func (cuda_Group_idx_max_or_min tbl sigB grpB fn)) := by
  constructor
  · intro hret
    rw [resolved_lowering_function, resolved_lowering_function, hret, helt]
  · intro h1 h2
    rw [resolved_idx_lowering tbl sig grp fn h1,
      resolved_idx_lowering tbl sigB grpB fn h2, helt]

/-- C3 amended witness: at a concrete table, idxmax resolution agrees across
two call sites that differ in return type and group value. -/
theorem dispatch_key_components_witness :
    resolved_func (cuda_Group_idx_max_or_min tbl_two_rettys
      { return_type := NType.float64, arg0 := GroupType.mk1 NType.int64 }
      { group_data := 0, index := 0, size := 0 } GroupOp.idxmax) =
    resolved_func (cuda_Group_idx_max_or_min tbl_two_rettys
      { return_type := NType.int64, arg0 := GroupType.mk1 NType.int64 }
      { group_data := 1, index := 2, size := 3 } GroupOp.idxmax) :=
  (dispatch_key_components tbl_two_rettys GroupOp.idxmax
    { return_type := NType.float64, arg0 := GroupType.mk1 NType.int64 }
    { return_type := NType.int64, arg0 := GroupType.mk1 NType.int64 }
    { group_data := 0, index := 0, size := 0 }
    { group_data := 1, index := 2, size := 3 } rfl).2 rfl rfl

/-- C5: on a dispatch hit, the emitted external call carries the arguments in
the fixed order (data pointer, size) for a plain reduction and (data pointer,
index pointer, size) for an idx-reduction, with the declared parameter and
return types of the call site, and the emitted call is the outcome of the
lowering. -/
theorem hit_marshals_fixed_order (tbl : DispatchTable) (sig : CallSig)
    (grp : GroupValue) (fn : GroupOp) :
    (∀ inner func, dictFind fn tbl.entries = some inner →
      dictFind (sig.return_type, sig.arg0.group_scalar_type) inner =
        some func →
      lowering_function tbl sig grp fn =
        { events := [Event.tableLookup fn
            (sig.return_type, sig.arg0.group_scalar_type)],
          result := Outcome.ok (LowerResult.call
            { func := func,
              ret_type := sig.return_type,
              param_types := [sig.arg0.group_data_type, sig.arg0.size_type],
              call_args := [ArgVal.ptrVal grp.group_data,
                ArgVal.intVal grp.size] }) }) ∧
    (∀ inner func, sig.arg0.index_type = index_default_type →
      dictFind fn tbl.entries = some inner →
      dictFind (NType.int64, sig.arg0.group_scalar_type) inner = some func →
      cuda_Group_idx_max_or_min tbl sig grp fn =
        { events := [Event.tableLookup fn
            (NType.int64, sig.arg0.group_scalar_type)],
          result := Outcome.ok (LowerResult.call
            { func := func,
              ret_type := sig.return_type,
              param_types := [sig.arg0.group_data_type,
                sig.arg0.group_index_type, sig.arg0.size_type],
              call_args := [ArgVal.ptrVal grp.group_data,
                ArgVal.ptrVal grp.index, ArgVal.intVal grp.size] }) }) := by
  constructor
  · intro inner func h1 h2
    unfold lowering_function
    simp [h1, h2]
  · intro inner func hidx h1 h2
    unfold cuda_Group_idx_max_or_min
    simp [hidx, h1, h2]

/-- A dispatch table with one float64 max entry and one idxmax entry. -/
def tbl_hit : DispatchTable :=
  { entries := [
      (GroupOp.max, [((NType.float64, NType.float64), 11)]),
      (GroupOp.idxmax, [((NType.int64, NType.float64), 12)])] }

/-- C5 witness: concrete hits for max and idxmax emit the calls with the
marshalled argument order. -/
theorem hit_marshals_fixed_order_witness :
    lowering_function tbl_hit
      { return_type := NType.float64, arg0 := GroupType.mk1 NType.float64 }
      { group_data := 5, index := 6, size := 3 } GroupOp.max =
      { events := [Event.tableLookup GroupOp.max
          (NType.float64, NType.float64)],
        result := Outcome.ok (LowerResult.call
          { func := 11,
            ret_type := NType.float64,
            param_types := [LType.ptr NType.float64,
              LType.scalar NType.int64],
            call_args := [ArgVal.ptrVal 5, ArgVal.intVal 3] }) } ∧
    cuda_Group_idx_max_or_min tbl_hit
      { return_type := NType.int64, arg0 := GroupType.mk1 NType.float64 }
      { group_data := 5, index := 6, size := 3 } GroupOp.idxmax =
      { events := [Event.tableLookup GroupOp.idxmax
          (NType.int64, NType.float64)],
        result := Outcome.ok (LowerResult.call
          { func := 12,
            ret_type := NType.int64,
            param_types := [LType.ptr NType.float64, LType.ptr NType.int64,
              LType.scalar NType.int64],
            call_args := [ArgVal.ptrVal 5, ArgVal.ptrVal 6,
              ArgVal.intVal 3] }) } :=
  ⟨(hit_marshals_fixed_order tbl_hit
      { return_type := NType.float64, arg0 := GroupType.mk1 NType.float64 }
      { group_data := 5, index := 6, size := 3 } GroupOp.max).1
      [((NType.float64, NType.float64), 11)] 11 (by decide) (by decide),
   (hit_marshals_fixed_order tbl_hit
      { return_type := NType.int64, arg0 := GroupType.mk1 NType.float64 }
      { group_data := 5, index := 6, size := 3 } GroupOp.idxmax).2
      [((NType.int64, NType.float64), 12)] 12 (by decide) (by decide)
      (by decide)⟩

/-- A dispatch table in which max and min are present as operations but have
no type entries. -/
def tbl_empty_ops : DispatchTable :=
  { entries := [(GroupOp.max, []), (GroupOp.min, [])] }

/-- C6 counterexample: on an inner-dict miss the raised error carries only
the missing (return type, element type) key; lowering max and lowering min at
the same call site raise the very same error value, so the failure does not
identify the operation. -/
theorem miss_error_identifies_operation_false :
    (invoke_reduction tbl_empty_ops
       { return_type := NType.float64, arg0 := GroupType.mk1 NType.float64 }
       { group_data := 0, index := 0, size := 0 } GroupOp.max).result =
      Outcome.err (LoweringError.keyErrKey (NType.float64, NType.float64)) ∧
    (invoke_reduction tbl_empty_ops
       { return_type := NType.float64, arg0 := GroupType.mk1 NType.float64 }
       { group_data := 0, index := 0, size := 0 } GroupOp.min).result =
      Outcome.err (LoweringError.keyErrKey (NType.float64, NType.float64)) ∧
    GroupOp.max ≠ GroupOp.min := by
  decide

/-- C6 (amended): for every operation other than size/count, a missing
dispatch key raises the KeyError of the failing dict access — the operation
when the operation itself is absent, else the (return type, element type)
pair (which does not name the operation) — the outcome is that error and
nothing else: no fallback and no coercion. -/
theorem miss_raises_keyerror (tbl : DispatchTable) (sig : CallSig)
    (grp : GroupValue) (fn : GroupOp) :
    ((fn = GroupOp.max ∨ fn = GroupOp.min ∨ fn = GroupOp.sum ∨
      fn = GroupOp.mean ∨ fn = GroupOp.std ∨ fn = GroupOp.var) →
      (dictFind fn tbl.entries = none →
        (invoke_reduction tbl sig grp fn).result =
          Outcome.err (LoweringError.keyErrOp fn)) ∧
      (∀ inner, dictFind fn tbl.entries = some inner →
        dictFind (sig.return_type, sig.arg0.group_scalar_type) inner = none →
        (invoke_reduction tbl sig grp fn).result =
          Outcome.err (LoweringError.keyErrKey
            (sig.return_type, sig.arg0.group_scalar_type)))) ∧
    ((fn = GroupOp.idxmax ∨ fn = GroupOp.idxmin) →
      sig.arg0.index_type = index_default_type →
      (dictFind fn tbl.entries = none →
        (invoke_reduction tbl sig grp fn).result =
          Outcome.err (LoweringError.keyErrOp fn)) ∧
      (∀ inner, dictFind fn tbl.entries = some inner →
        dictFind (NType.int64, sig.arg0.group_scalar_type) inner = none →
        (invoke_reduction tbl sig grp fn).result =
          Outcome.err (LoweringError.keyErrKey
            (NType.int64, sig.arg0.group_scalar_type)))) := by
  constructor
  · intro hplain
    constructor
    · intro h0
      rcases hplain with h | h | h | h | h | h <;> subst h <;>
        simp [invoke_reduction, cuda_Group_max, cuda_Group_min,
          cuda_Group_sum, cuda_Group_mean, cuda_Group_std, cuda_Group_var,
          lowering_function, h0]
    · intro inner h1 h2
      rcases hplain with h | h | h | h | h | h <;> subst h <;>
        simp [invoke_reduction, cuda_Group_max, cuda_Group_min,
          cuda_Group_sum, cuda_Group_mean, cuda_Group_std, cuda_Group_var,
          lowering_function, h1, h2]
  · intro hidxop hdef
    constructor
    · intro h0
      rcases hidxop with h | h <;> subst h <;>
        simp [invoke_reduction, cuda_Group_idxmax, cuda_Group_idxmin,
          cuda_Group_idx_max_or_min, hdef, h0]
    · intro inner h1 h2
      rcases hidxop with h | h <;> subst h <;>
        simp [invoke_reduction, cuda_Group_idxmax, cuda_Group_idxmin,
          cuda_Group_idx_max_or_min, hdef, h1, h2]

/-- C6 amended witness: a concrete inner-dict miss for max raises the
KeyError on the (return type, element type) pair. -/
theorem miss_raises_keyerror_witness :
    (invoke_reduction tbl_empty_ops
       { return_type := NType.float64, arg0 := GroupType.mk1 NType.float64 }
       { group_data := 0, index := 0, size := 0 } GroupOp.max).result =
      Outcome.err (LoweringError.keyErrKey (NType.float64, NType.float64)) :=
  ((miss_raises_keyerror tbl_empty_ops
      { return_type := NType.float64, arg0 := GroupType.mk1 NType.float64 }
      { group_data := 0, index := 0, size := 0 } GroupOp.max).1
    (Or.inl rfl)).2 [] (by decide) (by decide)

/-- C7: for every element type of the registry, the loop registers a lowering
for each of max, min, sum, count, size, mean, std, var at `GroupType(t)`, and
idxmax/idxmin at the group type whose index type is the default; every
idx-reduction registration in the loop output uses the default index type. -/
theorem registration_loop_coverage (t : NType)
    (ht : t ∈ SUPPORTED_GROUPBY_NUMBA_TYPES) :
    (GroupOp.max, GroupType.mk1 t, LoweringImpl.plain GroupOp.max) ∈
      registered_lowerings ∧
    (GroupOp.min, GroupType.mk1 t, LoweringImpl.plain GroupOp.min) ∈
      registered_lowerings ∧
    (GroupOp.sum, GroupType.mk1 t, LoweringImpl.plain GroupOp.sum) ∈
      registered_lowerings ∧
    (GroupOp.count, GroupType.mk1 t, LoweringImpl.countImpl) ∈
      registered_lowerings ∧
    (GroupOp.size, GroupType.mk1 t, LoweringImpl.sizeImpl) ∈
      registered_lowerings ∧
    (GroupOp.mean, GroupType.mk1 t, LoweringImpl.plain GroupOp.mean) ∈
      registered_lowerings ∧
    (GroupOp.std, GroupType.mk1 t, LoweringImpl.plain GroupOp.std) ∈
      registered_lowerings ∧
    (GroupOp.var, GroupType.mk1 t, LoweringImpl.plain GroupOp.var) ∈
      registered_lowerings ∧
    (GroupOp.idxmax,
      { group_scalar_type := t, index_type := index_default_type },
      LoweringImpl.idx GroupOp.idxmax) ∈ registered_lowerings ∧
    (GroupOp.idxmin,
      { group_scalar_type := t, index_type := index_default_type },
      LoweringImpl.idx GroupOp.idxmin) ∈ registered_lowerings ∧
    (∀ e ∈ registered_lowerings,
      (e.1 = GroupOp.idxmax ∨ e.1 = GroupOp.idxmin) →
      e.2.1.index_type = index_default_type) := by
  have h : t = NType.int64 ∨ t = NType.float64 := by
    simpa [SUPPORTED_GROUPBY_NUMBA_TYPES] using ht
  rcases h with rfl | rfl <;>
    exact ⟨by decide, by decide, by decide, by decide, by decide, by decide,
      by decide, by decide, by decide, by decide, by decide⟩

/-- C7 witness: the coverage at the registry element type int64. -/
theorem registration_loop_coverage_witness :
    NType.int64 ∈ SUPPORTED_GROUPBY_NUMBA_TYPES ∧
    ((GroupOp.max, GroupType.mk1 NType.int64,
        LoweringImpl.plain GroupOp.max) ∈ registered_lowerings ∧
     (GroupOp.min, GroupType.mk1 NType.int64,
        LoweringImpl.plain GroupOp.min) ∈ registered_lowerings ∧
     (GroupOp.sum, GroupType.mk1 NType.int64,
        LoweringImpl.plain GroupOp.sum) ∈ registered_lowerings ∧
     (GroupOp.count, GroupType.mk1 NType.int64,
        LoweringImpl.countImpl) ∈ registered_lowerings ∧
     (GroupOp.size, GroupType.mk1 NType.int64,
        LoweringImpl.sizeImpl) ∈ registered_lowerings ∧
     (GroupOp.mean, GroupType.mk1 NType.int64,
        LoweringImpl.plain GroupOp.mean) ∈ registered_lowerings ∧
     (GroupOp.std, GroupType.mk1 NType.int64,
        LoweringImpl.plain GroupOp.std) ∈ registered_lowerings ∧
     (GroupOp.var, GroupType.mk1 NType.int64,
        LoweringImpl.plain GroupOp.var) ∈ registered_lowerings ∧
     (GroupOp.idxmax,
        { group_scalar_type := NType.int64,
          index_type := index_default_type },
        LoweringImpl.idx GroupOp.idxmax) ∈ registered_lowerings ∧
     (GroupOp.idxmin,
        { group_scalar_type := NType.int64,
          index_type := index_default_type },
        LoweringImpl.idx GroupOp.idxmin) ∈ registered_lowerings ∧
     (∀ e ∈ registered_lowerings,
        (e.1 = GroupOp.idxmax ∨ e.1 = GroupOp.idxmin) →
        e.2.1.index_type = index_default_type)) :=
  ⟨by decide, registration_loop_coverage NType.int64 (by decide)⟩

/-- C8: under the default index type, the idx lowering accesses the Dispatch
Table with the fixed key (int64, element type), whatever the call-site return
type, and the function it resolves is exactly the table entry registered
under return type int64 for the group element type. -/
theorem idx_lookup_key_fixed_int64 (tbl : DispatchTable) (sig : CallSig)
    (grp : GroupValue) (fn : GroupOp)
    (hdef : sig.arg0.index_type = index_default_type) :
    (cuda_Group_idx_max_or_min tbl sig grp fn).events =
      [Event.tableLookup fn (NType.int64, sig.arg0.group_scalar_type)] ∧
    resolved_func (cuda_Group_idx_max_or_min tbl sig grp fn) =
      Option.bind (dictFind fn tbl.entries)
        (dictFind (NType.int64, sig.arg0.group_scalar_type)) := by
  constructor
  · unfold cuda_Group_idx_max_or_min
    simp only [hdef, ne_eq, not_true_eq_false, if_false]
    cases h : dictFind fn tbl.entries with
    | none => rfl
    | some inner =>
        cases h2 : dictFind (NType.int64, sig.arg0.group_scalar_type)
            inner <;>
          simp [h2]
  · exact resolved_idx_lowering tbl sig grp fn hdef

/-- C8 witness: at a concrete idxmin call site with a float32 return type,
the lookup key is still (int64, element type). -/
theorem idx_lookup_key_fixed_int64_witness :
    (cuda_Group_idx_max_or_min { entries := [] }
      { return_type := NType.float32, arg0 := GroupType.mk1 NType.float64 }
      { group_data := 0, index := 0, size := 0 } GroupOp.idxmin).events =
      [Event.tableLookup GroupOp.idxmin (NType.int64, NType.float64)] ∧
    resolved_func (cuda_Group_idx_max_or_min { entries := [] }
      { return_type := NType.float32, arg0 := GroupType.mk1 NType.float64 }
      { group_data := 0, index := 0, size := 0 } GroupOp.idxmin) =
      Option.bind (dictFind GroupOp.idxmin
        (DispatchTable.entries { entries := [] }))
        (dictFind (NType.int64, NType.float64)) :=
  idx_lookup_key_fixed_int64 { entries := [] }
    { return_type := NType.float32, arg0 := GroupType.mk1 NType.float64 }
    { group_data := 0, index := 0, size := 0 } GroupOp.idxmin (by decide)

/-- Helper: the events of the shared plain lowering are exactly one table
access with the computed key, hit or miss. -/
theorem events_lowering_function (tbl : DispatchTable) (sig : CallSig)
    (grp : GroupValue) (fn : GroupOp) :
    (lowering_function tbl sig grp fn).events =
      [Event.tableLookup fn
        (sig.return_type, sig.arg0.group_scalar_type)] := by
  unfold lowering_function
  cases h : dictFind fn tbl.entries with
  | none => rfl
  | some inner =>
      cases h2 : dictFind (sig.return_type, sig.arg0.group_scalar_type)
          inner <;>
        simp [h2]

/-- Helper: the idx lowering performs either no event (the TypeError path) or
exactly one table access. -/
theorem events_idx_lowering (tbl : DispatchTable) (sig : CallSig)
    (grp : GroupValue) (fn : GroupOp) :
    (cuda_Group_idx_max_or_min tbl sig grp fn).events = [] ∨
    (cuda_Group_idx_max_or_min tbl sig grp fn).events =
      [Event.tableLookup fn (NType.int64, sig.arg0.group_scalar_type)] := by
  unfold cuda_Group_idx_max_or_min
  rcases eq_or_ne sig.arg0.index_type index_default_type with hdef | hne
  · right
    simp only [hdef, ne_eq, not_true_eq_false, if_false]
    cases h : dictFind fn tbl.entries with
    | none => rfl
    | some inner =>
        cases h2 : dictFind (NType.int64, sig.arg0.group_scalar_type)
            inner <;>
          simp [h2]
  · left
    simp [hne]

/-- Helper: every event of the plain lowering is a table access. -/
theorem mem_events_lowering_function (tbl : DispatchTable) (sig : CallSig)
    (grp : GroupValue) (fn : GroupOp) (e : Event)
    (he : e ∈ (lowering_function tbl sig grp fn).events) :
    ∃ op key, e = Event.tableLookup op key := by
  rw [events_lowering_function] at he
  simp only [List.mem_singleton] at he
  exact ⟨fn, (sig.return_type, sig.arg0.group_scalar_type), he⟩

/-- Helper: every event of the idx lowering is a table access. -/
theorem mem_events_idx_lowering (tbl : DispatchTable) (sig : CallSig)
    (grp : GroupValue) (fn : GroupOp) (e : Event)
    (he : e ∈ (cuda_Group_idx_max_or_min tbl sig grp fn).events) :
    ∃ op key, e = Event.tableLookup op key := by
  rcases events_idx_lowering tbl sig grp fn with h | h <;> rw [h] at he
  · exact absurd he (List.not_mem_nil e)
  · simp only [List.mem_singleton] at he
    exact ⟨fn, (NType.int64, sig.arg0.group_scalar_type), he⟩

/-- C10: lowering any operation leaves the runtime state unchanged — the
group struct fields and the memory after the call are the ones before — and
the only events a lowering performs are Dispatch Table accesses: no buffer
element is read or written during lowering itself. -/
theorem lowering_frame (tbl : DispatchTable) (sig : CallSig)
    (st : LowerState) (fn : GroupOp) :
    (invoke_reduction_state tbl sig st fn).2 = st ∧
    (invoke_reduction_state tbl sig st fn).2.grp = st.grp ∧
    (invoke_reduction_state tbl sig st fn).2.mem = st.mem ∧
    ∀ e ∈ (invoke_reduction_state tbl sig st fn).1.events,
      ∃ op key, e = Event.tableLookup op key := by
  refine ⟨rfl, rfl, rfl, ?_⟩
  intro e he
  cases fn with
  | size => simp [invoke_reduction_state, invoke_reduction,
      cuda_Group_size] at he
  | count => simp [invoke_reduction_state, invoke_reduction,
      cuda_Group_count] at he
  | idxmax => exact mem_events_idx_lowering tbl sig st.grp GroupOp.idxmax e he
  | idxmin => exact mem_events_idx_lowering tbl sig st.grp GroupOp.idxmin e he
  | max => exact mem_events_lowering_function tbl sig st.grp GroupOp.max e he
  | min => exact mem_events_lowering_function tbl sig st.grp GroupOp.min e he
  | sum => exact mem_events_lowering_function tbl sig st.grp GroupOp.sum e he
  | mean => exact mem_events_lowering_function tbl sig st.grp GroupOp.mean e he
  | std => exact mem_events_lowering_function tbl sig st.grp GroupOp.std e he
  | var => exact mem_events_lowering_function tbl sig st.grp GroupOp.var e he

/-- C10 witness: at a concrete state, the sum lowering returns the state
unchanged and its one event is a table access. -/
theorem lowering_frame_witness :
    ∃ op key, Event.tableLookup GroupOp.sum (NType.int64, NType.int64) =
      Event.tableLookup op key :=
  (lowering_frame { entries := [] }
      { return_type := NType.int64, arg0 := GroupType.mk1 NType.int64 }
      { grp := { group_data := 0, index := 0, size := 0 },
        mem := fun _ => 0 }
      GroupOp.sum).2.2.2
    (Event.tableLookup GroupOp.sum (NType.int64, NType.int64))
    (List.mem_singleton.mpr rfl)

end GroupbyLowering
